import Mathlib

/-!
Verification of the dual-agent cross-agent message-passing and task-coordination
layer (the Limax666/dual-agent repository).

This file gives a shallow embedding, in Lean 4, of the core pieces of the
repository that the verified properties are about:

* `src/common/messaging.py` — the `A2AMessage` envelope with its
  `to_dict`/`from_dict` serialization, and the `A2AMessageQueue` pair of
  directional FIFO channels (`send_to_computer` / `send_to_phone` /
  `receive_from_phone` / `receive_from_computer`).
* `src/common/tool_calling.py` — the tool-call bridge: the global
  agent-name → handler registry, `ToolCallHandler.send_message` /
  `receive_message`, and the module-level tool functions
  `send_message_to_computer_agent` / `send_message_to_phone_agent`.
* `src/phone_agent/thinking_engine.py` — the `MixedThinkingEngine`
  dual-path (fast/deep) thinking coordinator: `think`,
  `_fast_think_with_tools`, `_deep_think_with_tools`, `_handle_tool_calls`.
* `src/computer_agent/computer_agent.py` — `fill_form_with_data` and the
  result message it sends back through `create_info_message`.

Modelling conventions:

* Python `asyncio` queues become Lean lists (enqueue = append at the back,
  dequeue = pop at the front); an awaited `get()` on an empty queue, which
  suspends, is modelled as `none`.
* Python exceptions become `Except String`: a function that may raise an
  uncaught exception returns `.error msg`; a `try/except` around a call is
  modelled by matching on that result.
* `uuid.uuid4()` and `time.time()` are external nondeterminism; they are
  passed in as explicit `message_id` / `timestamp` arguments (or fixed
  placeholder values where no verified property depends on them).
* Python dicts with string keys become association lists with the
  replace-first-occurrence insertion of Python dict assignment; open-ended
  `Any` payloads that the code merely passes through become type parameters.
* The LLM backend and the browser-automation primitives are external
  collaborators (spec §1, §6); an LLM call is modelled by its outcome
  (`LLMOutcome`: returned content plus optional tool calls, or a raised
  exception/timeout), and the per-field browser fill outcome by a boolean
  oracle `fill_ok`.
-/

namespace DualAgent

/-- Simple JSON-style scalar payload values, used where the Python code builds
concrete `Dict[str, Any]` contents (string, number, boolean entries). -/
inductive JVal where
  | jstr (s : String)
  | jnum (n : Nat)
  | jbool (b : Bool)
deriving DecidableEq, Repr

/-- Association-list model of a Python string-keyed dict. -/
abbrev Dict (α : Type) := List (String × α)

/-- Python dict lookup `d.get(k)`: the value at the first (for a genuine dict,
only) occurrence of the key. -/
def dictGet {α : Type} : Dict α → String → Option α
  | [], _ => none
  | (k', v) :: rest, k => if k' = k then some v else dictGet rest k

/-- Python dict assignment `d[k] = v`: replaces the value at an existing key
in place, appends a new entry otherwise. -/
def dictInsert {α : Type} : Dict α → String → α → Dict α
  | [], k, v => [(k, v)]
  | (k', v') :: rest, k, v =>
    if k' = k then (k, v) :: rest else (k', v') :: dictInsert rest k v

/-- Python `d.update(d2)`: assigns every entry of `d2` into `d` in order. -/
def dictUpdate {α : Type} (d d2 : Dict α) : Dict α :=
  d2.foldl (fun acc kv => dictInsert acc kv.1 kv.2) d

/-- Python `str.lower()` restricted to what the code applies it to
(ASCII enum member names and form-field keys). -/
def strLower (s : String) : String := ⟨s.data.map Char.toLower⟩

/-- Python `str.upper()` restricted to what the code applies it to. -/
def strUpper (s : String) : String := ⟨s.data.map Char.toUpper⟩

namespace Messaging

/-- `messaging.MessageType` (queue-transport taxonomy). -/
inductive MessageType where
  | INFO
  | ERROR
  | REQUEST
  | STATUS
  | ACTION
deriving DecidableEq, Repr

/-- Python `Enum.name` for `messaging.MessageType`. -/
def MessageType.name : MessageType → String
  | .INFO => "INFO"
  | .ERROR => "ERROR"
  | .REQUEST => "REQUEST"
  | .STATUS => "STATUS"
  | .ACTION => "ACTION"

/-- Python `MessageType[name]` lookup; a `KeyError` on an unknown name is
modelled as `none`. -/
def MessageType.fromName (s : String) : Option MessageType :=
  if s = "INFO" then some .INFO
  else if s = "ERROR" then some .ERROR
  else if s = "REQUEST" then some .REQUEST
  else if s = "STATUS" then some .STATUS
  else if s = "ACTION" then some .ACTION
  else none

/-- `messaging.MessageSource`. -/
inductive MessageSource where
  | PHONE
  | COMPUTER
deriving DecidableEq, Repr

/-- Python `Enum.name` for `MessageSource`. -/
def MessageSource.name : MessageSource → String
  | .PHONE => "PHONE"
  | .COMPUTER => "COMPUTER"

/-- Python `MessageSource[name]` lookup. -/
def MessageSource.fromName (s : String) : Option MessageSource :=
  if s = "PHONE" then some .PHONE
  else if s = "COMPUTER" then some .COMPUTER
  else none

/-- `messaging.PartType`. -/
inductive PartType where
  | TEXT
  | DATA
  | FILE
  | IMAGE
deriving DecidableEq, Repr

/-- Python `Enum.name` for `PartType`. -/
def PartType.name : PartType → String
  | .TEXT => "TEXT"
  | .DATA => "DATA"
  | .FILE => "FILE"
  | .IMAGE => "IMAGE"

/-- Python `PartType[name]` lookup. -/
def PartType.fromName (s : String) : Option PartType :=
  if s = "TEXT" then some .TEXT
  else if s = "DATA" then some .DATA
  else if s = "FILE" then some .FILE
  else if s = "IMAGE" then some .IMAGE
  else none

/-- `messaging.Part`. The `content : Any` payload and the values of the
`metadata` dict are passed through untouched by the code, so they are a type
parameter `α`. -/
structure Part (α : Type) where
  part_type : PartType
  content : α
  mime_type : String := "text/plain"
  metadata : Dict α := []
deriving DecidableEq, Repr

/-- `messaging.A2AMessage`. `content : Dict[str, Any]` is passed through
untouched by the queue and the serializer, so it is a type parameter.
`message_id` (default `uuid4()`) and `timestamp` (default `time.time()`) are
explicit fields; their default factories are external nondeterminism. -/
structure A2AMessage (α : Type) where
  source : MessageSource
  type : MessageType
  content : α
  task_id : String
  message_id : String
  timestamp : Nat
  parts : List (Part α) := []
deriving DecidableEq, Repr

/-- The dict produced by `Part`'s entry in `A2AMessage.to_dict`. -/
structure PartDict (α : Type) where
  part_type : String
  content : α
  mime_type : String
  metadata : Dict α
deriving DecidableEq, Repr

/-- The dict produced by `A2AMessage.to_dict`. -/
structure A2AMessageDict (α : Type) where
  message_id : String
  source : String
  type : String
  content : α
  task_id : String
  timestamp : Nat
  parts : List (PartDict α)
deriving DecidableEq, Repr

/-- The per-part dictionary built inside `A2AMessage.to_dict`
(`part.part_type.name.lower()` etc.). -/
def Part.to_dict {α : Type} (part : Part α) : PartDict α :=
  { part_type := strLower part.part_type.name
    content := part.content
    mime_type := part.mime_type
    metadata := part.metadata }

/-- `A2AMessage.to_dict` (src/common/messaging.py lines 68-86). -/
def A2AMessage.to_dict {α : Type} (m : A2AMessage α) : A2AMessageDict α :=
  { message_id := m.message_id
    source := strLower m.source.name
    type := strLower m.type.name
    content := m.content
    task_id := m.task_id
    timestamp := m.timestamp
    parts := m.parts.map Part.to_dict }

/-- The per-part reconstruction inside `A2AMessage.from_dict`:
`PartType[part_data["part_type"].upper()]` (a `KeyError` is `none`) followed by
the `Part(...)` constructor call. -/
def Part.from_dict {α : Type} (d : PartDict α) : Option (Part α) :=
  (PartType.fromName (strUpper d.part_type)).map fun part_type =>
    { part_type := part_type
      content := d.content
      mime_type := d.mime_type
      metadata := d.metadata }

/-- `A2AMessage.from_dict` (src/common/messaging.py lines 88-112). The enum
lookups `MessageSource[data["source"].upper()]` and
`MessageType[data["type"].upper()]` raise `KeyError` on unknown names, modelled
by `Option`. In a round trip every optional key (`message_id`, `timestamp`,
`parts`, `mime_type`, `metadata`) is present, so the `.get` defaults
(`uuid4()`, `time.time()`, `[]`) never fire and are not modelled. -/
def A2AMessage.from_dict {α : Type} (data : A2AMessageDict α) :
    Option (A2AMessage α) := do
  let source ← MessageSource.fromName (strUpper data.source)
  let msg_type ← MessageType.fromName (strUpper data.type)
  let parts ← data.parts.mapM Part.from_dict
  pure { message_id := data.message_id
         source := source
         type := msg_type
         content := data.content
         task_id := data.task_id
         timestamp := data.timestamp
         parts := parts }

/-- `messaging.A2AMessageQueue` (src/common/messaging.py lines 125-258).
The two lazily created `asyncio.Queue`s are modelled as lists (front =
next message to be delivered); `message_history` is the unbounded history
log. The per-direction fire-and-forget handler callbacks spawned inside
`receive_from_*` run as detached tasks and do not affect the message
returned to the caller, so they are not part of the queue model. -/
structure A2AMessageQueue (α : Type) where
  phone_to_computer : List (A2AMessage α) := []
  computer_to_phone : List (A2AMessage α) := []
  message_history : List (A2AMessage α) := []
deriving DecidableEq, Repr

/-- The queue in its initial state (fresh `A2AMessageQueue()` with both
channels empty). -/
def A2AMessageQueue.init {α : Type} : A2AMessageQueue α := {}

/-- `A2AMessageQueue.send_to_computer` (lines 151-168): stamps
`message.source = MessageSource.PHONE` (mutating the caller's object),
appends the message to `message_history`, and enqueues it on the
phone→computer channel. -/
def A2AMessageQueue.send_to_computer {α : Type} (q : A2AMessageQueue α)
    (message : A2AMessage α) : A2AMessageQueue α :=
  let message := { message with source := MessageSource.PHONE }
  { q with
    message_history := q.message_history ++ [message]
    phone_to_computer := q.phone_to_computer ++ [message] }

/-- `A2AMessageQueue.send_to_phone` (lines 170-187): stamps
`message.source = MessageSource.COMPUTER`, logs, and enqueues on the
computer→phone channel. -/
def A2AMessageQueue.send_to_phone {α : Type} (q : A2AMessageQueue α)
    (message : A2AMessage α) : A2AMessageQueue α :=
  let message := { message with source := MessageSource.COMPUTER }
  { q with
    message_history := q.message_history ++ [message]
    computer_to_phone := q.computer_to_phone ++ [message] }

/-- `A2AMessageQueue.receive_from_phone` (lines 207-223): awaits
`phone_to_computer.get()` and returns the message (the handler callbacks it
spawns are fire-and-forget). `none` models the suspended await on an empty
channel. -/
def A2AMessageQueue.receive_from_phone {α : Type} (q : A2AMessageQueue α) :
    Option (A2AMessage α × A2AMessageQueue α) :=
  match q.phone_to_computer with
  | [] => none
  | m :: rest => some (m, { q with phone_to_computer := rest })

/-- `A2AMessageQueue.receive_from_computer` (lines 189-205). -/
def A2AMessageQueue.receive_from_computer {α : Type} (q : A2AMessageQueue α) :
    Option (A2AMessage α × A2AMessageQueue α) :=
  match q.computer_to_phone with
  | [] => none
  | m :: rest => some (m, { q with computer_to_phone := rest })

/-- A sequence of `send_to_computer` calls, in order. -/
def A2AMessageQueue.sendAllToComputer {α : Type} (q : A2AMessageQueue α)
    (ms : List (A2AMessage α)) : A2AMessageQueue α :=
  ms.foldl A2AMessageQueue.send_to_computer q

/-- A sequence of `send_to_phone` calls, in order. -/
def A2AMessageQueue.sendAllToPhone {α : Type} (q : A2AMessageQueue α)
    (ms : List (A2AMessage α)) : A2AMessageQueue α :=
  ms.foldl A2AMessageQueue.send_to_phone q

/-- `n` consecutive `receive_from_phone` calls; stops early if the channel
runs dry (the real await would suspend there). -/
def A2AMessageQueue.receiveNFromPhone {α : Type} :
    A2AMessageQueue α → Nat → List (A2AMessage α)
  | _, 0 => []
  | q, n + 1 =>
    match q.receive_from_phone with
    | none => []
    | some (m, q') => m :: q'.receiveNFromPhone n

/-- `n` consecutive `receive_from_computer` calls. -/
def A2AMessageQueue.receiveNFromComputer {α : Type} :
    A2AMessageQueue α → Nat → List (A2AMessage α)
  | _, 0 => []
  | q, n + 1 =>
    match q.receive_from_computer with
    | none => []
    | some (m, q') => m :: q'.receiveNFromComputer n

end Messaging

namespace ToolCalling

/-- `tool_calling.MessageType` (tool-call-transport taxonomy; value-based
enum). -/
inductive MessageType where
  | USER_INPUT
  | SYSTEM_STATUS
  | TASK_RESULT
  | ERROR
  | FORM_DATA
  | PAGE_ANALYSIS
  | TASK_COMPLETION
deriving DecidableEq, Repr

/-- Python `Enum.value` for `tool_calling.MessageType`. -/
def MessageType.value : MessageType → String
  | .USER_INPUT => "user_input"
  | .SYSTEM_STATUS => "system_status"
  | .TASK_RESULT => "task_result"
  | .ERROR => "error"
  | .FORM_DATA => "form_data"
  | .PAGE_ANALYSIS => "page_analysis"
  | .TASK_COMPLETION => "task_completion"

/-- The list `[t.value for t in MessageType]` used by the membership tests in
`send_message_to_computer_agent` / `send_message_to_phone_agent`. -/
def MessageType.values : List String :=
  ["user_input", "system_status", "task_result", "error", "form_data",
   "page_analysis", "task_completion"]

/-- Python `MessageType(s)` value lookup: `some` exactly on the members of
`MessageType.values` (a `ValueError` on anything else is `none`). -/
def MessageType.ofValue (s : String) : Option MessageType :=
  if s = "user_input" then some .USER_INPUT
  else if s = "system_status" then some .SYSTEM_STATUS
  else if s = "task_result" then some .TASK_RESULT
  else if s = "error" then some .ERROR
  else if s = "form_data" then some .FORM_DATA
  else if s = "page_analysis" then some .PAGE_ANALYSIS
  else if s = "task_completion" then some .TASK_COMPLETION
  else none

/-- `tool_calling.ToolMessage`. -/
structure ToolMessage where
  message_id : String
  message_type : MessageType
  sender : String
  recipient : String
  content : Dict JVal
  timestamp : Nat
  task_id : Option String := none
deriving DecidableEq, Repr

/-- A `tool_calling.ToolCallHandler` object, reduced to the identity that the
verified properties depend on: its `agent_name` and a reference (`hid`) under
which its private `message_queue` inbox lives in the bridge state. The
type-keyed `message_handlers` table and the `running` flag only drive the
listen loop, which is not the subject of any claim here. -/
structure ToolCallHandler where
  agent_name : String
  hid : Nat
deriving DecidableEq, Repr

/-- The process-wide mutable state of the tool-call bridge: the global
`_agent_handlers` registry (a Python dict, modelled with
replace-in-place insertion) and every handler's private inbox, keyed by
handler reference. -/
structure BridgeState where
  registry : Dict ToolCallHandler
  inboxes : Nat → List ToolMessage

/-- A fresh bridge: empty registry, every inbox empty. -/
def BridgeState.init : BridgeState := ⟨[], fun _ => []⟩

/-- `register_agent_handler` (src/common/tool_calling.py lines 112-116):
`_agent_handlers[agent_name] = handler`. -/
def register_agent_handler (st : BridgeState) (agent_name : String)
    (handler : ToolCallHandler) : BridgeState :=
  { st with registry := dictInsert st.registry agent_name handler }

/-- `get_agent_handler` (lines 119-121): `_agent_handlers.get(agent_name)`. -/
def get_agent_handler (st : BridgeState) (agent_name : String) :
    Option ToolCallHandler :=
  dictGet st.registry agent_name

/-- `ToolCallHandler.receive_message` (lines 98-101): enqueues the message
into this handler's private inbox. -/
def receive_message (st : BridgeState) (self : ToolCallHandler)
    (message : ToolMessage) : BridgeState :=
  { st with
    inboxes := fun h =>
      if h = self.hid then st.inboxes h ++ [message] else st.inboxes h }

/-- `ToolCallHandler.send_message` (lines 76-96): builds the `ToolMessage`
(fresh `message_id` and `timestamp` are passed in), looks the recipient up in
the registry — once, with no retry — and on success hands the message to the
recipient's `receive_message`, returning the message. If the recipient is
absent it raises `Exception(f"找不到目标Agent: {recipient}")`, modelled as
`.error`. -/
def ToolCallHandler.send_message (st : BridgeState) (self : ToolCallHandler)
    (recipient : String) (message_type : MessageType) (content : Dict JVal)
    (task_id : Option String) (message_id : String) (timestamp : Nat) :
    Except String (ToolMessage × BridgeState) :=
  let message : ToolMessage :=
    { message_id := message_id
      message_type := message_type
      sender := self.agent_name
      recipient := recipient
      content := content
      timestamp := timestamp
      task_id := task_id }
  match get_agent_handler st recipient with
  | some target => .ok (message, receive_message st target message)
  | none => .error ("找不到目标Agent: " ++ recipient)

/-- The structured result dict returned by the module-level tool functions:
`{"success": ..., "message_id": ..., "sent_at": ...}` on success,
`{"success": False, "error": ...}` on failure. -/
structure SendResult where
  success : Bool
  message_id : Option String := none
  sent_at : Option Nat := none
  error : Option String := none
deriving DecidableEq, Repr

/-- `send_message_to_computer_agent` (lines 125-181). The whole body sits in
`try/except`, so the function never raises: it returns a structured result
dict. It first looks up the *sender's own* handler `"phone_agent"`; if that is
absent it retries the same lookup once after `asyncio.sleep(0.1)` (in this
sequential model the registry is unchanged across the sleep, so the retry
re-reads the same registry) and, if still absent, returns a structured
failure naming the registered agents. It then builds
`content = {"text": message, "timestamp": now}` updated with
`additional_data`, maps `message_type` through the value membership test
(`MessageType(message_type) if message_type in [t.value for t in MessageType]
else MessageType.USER_INPUT`, which is `(ofValue message_type).getD
USER_INPUT`), and calls `phone_handler.send_message(recipient =
"computer_agent", ...)`; an exception raised there is caught by the outer
`except` and returned as `{"success": False, "error": str(e)}`. -/
def send_message_to_computer_agent (st : BridgeState) (message : String)
    (message_type : String := "user_input") (task_id : Option String := none)
    (additional_data : Option (Dict JVal) := none)
    (message_id : String := "") (now : Nat := 0) : SendResult × BridgeState :=
  let phone_handler :=
    match get_agent_handler st "phone_agent" with
    | some h => some h
    | none => get_agent_handler st "phone_agent"
  match phone_handler with
  | none =>
    ({ success := false
       error := some ("Phone Agent处理器未注册，当前已注册: "
         ++ String.intercalate ", " (st.registry.map Prod.fst)) }, st)
  | some ph =>
    let content : Dict JVal :=
      [("text", JVal.jstr message), ("timestamp", JVal.jnum now)]
    let content :=
      match additional_data with
      | some d => dictUpdate content d
      | none => content
    let msg_type := (MessageType.ofValue message_type).getD .USER_INPUT
    match ToolCallHandler.send_message st ph "computer_agent" msg_type content
        task_id message_id now with
    | .ok (sent, st') =>
      ({ success := true
         message_id := some sent.message_id
         sent_at := some sent.timestamp }, st')
    | .error e => ({ success := false, error := some e }, st)

/-- `send_message_to_phone_agent` (lines 184-233): the computer→phone
counterpart. It looks up the sender handler `"computer_agent"` (no retry
here), falls back to `MessageType.TASK_RESULT` on an unrecognized
`message_type` value, and sends to recipient `"phone_agent"`; exceptions are
caught and returned as a structured failure. -/
def send_message_to_phone_agent (st : BridgeState) (message : String)
    (message_type : String := "task_result") (task_id : Option String := none)
    (additional_data : Option (Dict JVal) := none)
    (message_id : String := "") (now : Nat := 0) : SendResult × BridgeState :=
  match get_agent_handler st "computer_agent" with
  | none => ({ success := false, error := some "Computer Agent处理器未注册" }, st)
  | some ch =>
    let content : Dict JVal :=
      [("text", JVal.jstr message), ("timestamp", JVal.jnum now)]
    let content :=
      match additional_data with
      | some d => dictUpdate content d
      | none => content
    let msg_type := (MessageType.ofValue message_type).getD .TASK_RESULT
    match ToolCallHandler.send_message st ch "phone_agent" msg_type content
        task_id message_id now with
    | .ok (sent, st') =>
      ({ success := true
         message_id := some sent.message_id
         sent_at := some sent.timestamp }, st')
    | .error e => ({ success := false, error := some e }, st)

end ToolCalling

namespace Thinking

open ToolCalling

/-- One entry of `MixedThinkingEngine.conversation_history`: a role-tagged
chat message dict `{"role": ..., "content": ...}`. In Python these entries are
mutable dict objects; `list.copy()` copies only the list of references to
them, which is what makes the in-place `+=` in `_deep_think_with_tools`
visible through the caller's list. -/
structure ChatMsg where
  role : String
  content : String
deriving DecidableEq, Repr

/-- A tool call returned by the LLM, with its JSON `arguments` already parsed
into the keyword arguments that `_handle_tool_calls` forwards to
`send_message_to_computer_agent` (`json.loads` of the argument string is the
LLM boundary; `message_type` carries the wrapper's default `"user_input"`
when the LLM omitted it, and `additional_data` models
`function_args.get("additional_data", {})`). -/
structure LLMToolCall where
  function_name : String
  message : String
  message_type : String := "user_input"
  task_id : Option String := none
  additional_data : Dict JVal := []
deriving DecidableEq, Repr

/-- The outcome of one underlying `client.chat.completions.create` call — the
LLM boundary of spec §6. `ok` carries `message.content` (which may be `None`)
and `message.tool_calls`; `raise` is any exception out of the call, including
a timeout. -/
inductive LLMOutcome where
  | ok (content : Option String) (tool_calls : Option (List LLMToolCall))
  | raise (e : String)
deriving DecidableEq, Repr

/-- The fixed string `_fast_think_with_tools` returns from its `except`
branch (src/phone_agent/thinking_engine.py line 211). -/
def fastExceptText : String := "嗯..."

/-- The fixed string `_deep_think_with_tools` returns from its `except`
branch (line 257). -/
def deepExceptText : String := "让我想想...啊，抱歉，我刚刚走神了。"

/-- The suffix `_deep_think_with_tools` appends to the system message content
(lines 222-228), copied verbatim. -/
def deepSuffix : String :=
  "\n\n请进行深入思考，考虑以下要点：\n1. 理解用户的真实意图\n2. 分析所需的具体操作步骤  \n3. 如果用户提供了表单信息，请使用send_message_to_computer_agent工具发送给Computer Agent\n4. 提供准确、详细的回应"

/-- `MixedThinkingEngine._fast_think_with_tools` (lines 178-211): on a
successful completion returns `((message.content or "").strip(),
message.tool_calls)`; any exception out of the LLM call is caught and
`("嗯...", None)` is returned. -/
def fastThinkWithTools (outcome : LLMOutcome) :
    String × Option (List LLMToolCall) :=
  match outcome with
  | .ok content tool_calls => ((content.getD "").trim, tool_calls)
  | .raise _ => (fastExceptText, none)

/-- `MixedThinkingEngine._deep_think_with_tools` (lines 213-257). The body
runs inside `try/except`:

* `enhanced_messages = messages.copy()` is a SHALLOW copy — the element at
  index 0 is the same dict object as `messages[0]`;
* `enhanced_messages[0]["content"] += deepSuffix` (guarded by
  `enhanced_messages[0]["role"] == "system"`) therefore mutates the caller's
  history entry in place; on an empty history the index raises `IndexError`,
  which the `except` catches before any mutation;
* the result mirrors `_fast_think_with_tools` with the deep filler text.

The value returned is paired with the caller's `messages` list as it stands
after the call, which is how the Python heap effect is made explicit. -/
def deepThinkWithTools (messages : List ChatMsg) (outcome : LLMOutcome) :
    (String × Option (List LLMToolCall)) × List ChatMsg :=
  match messages with
  | [] => ((deepExceptText, none), [])
  | m :: rest =>
    let messages1 :=
      if m.role = "system" then
        { m with content := m.content ++ deepSuffix } :: rest
      else m :: rest
    match outcome with
    | .ok content tool_calls => (((content.getD "").trim, tool_calls), messages1)
    | .raise _ => ((deepExceptText, none), messages1)

/-- One outbound dispatch performed by `_handle_tool_calls`: an invocation of
the `send_message_to_computer_agent` tool function, tagged with the thinking
path that produced it. -/
structure SendEvent where
  from_fast_thinking : Bool
  message : String
  result : SendResult
deriving DecidableEq, Repr

/-- `MixedThinkingEngine._handle_tool_calls` (lines 259-287): iterates the
tool calls in order; for each call named `send_message_to_computer_agent` it
adds `original_user_input` and `from_fast_thinking` into `additional_data`
and awaits the tool function (which itself never raises), threading the
bridge state and recording the dispatch. Calls with any other function name
are skipped. Fresh `uuid4`/`time.time` values inside the tool function are
placeholders here; no verified property depends on them. -/
def handleToolCalls (st : BridgeState) (tool_calls : List LLMToolCall)
    (user_text : String) (from_fast_thinking : Bool) :
    BridgeState × List SendEvent :=
  match tool_calls with
  | [] => (st, [])
  | tc :: rest =>
    if tc.function_name = "send_message_to_computer_agent" then
      let additional_data :=
        dictInsert
          (dictInsert tc.additional_data "original_user_input"
            (JVal.jstr user_text))
          "from_fast_thinking" (JVal.jbool from_fast_thinking)
      let (result, st1) := send_message_to_computer_agent st tc.message
        tc.message_type tc.task_id (some additional_data) "" 0
      let (st2, events) := handleToolCalls st1 rest user_text from_fast_thinking
      (st2, ⟨from_fast_thinking, tc.message, result⟩ :: events)
    else handleToolCalls st rest user_text from_fast_thinking

/-- Python truthiness of `message.tool_calls` in
`if fast_tool_calls and user_text:` — `None` and the empty list are falsy. -/
def truthyCalls : Option (List LLMToolCall) → Bool
  | none => false
  | some l => !l.isEmpty

/-- The wall-clock order in which the two concurrently scheduled LLM tasks
finish. `think` awaits `fast_task` first regardless: the completion order can
only change where the event loop suspends, never which result is handled
first, so the model's result is the same in both branches — that independence
is exactly the scheduling property the theorems quantify over. -/
inductive CompletionOrder where
  | fast_first
  | deep_first
deriving DecidableEq, Repr

/-- Everything observable about one `MixedThinkingEngine.think` call: the
returned `(fast_response, deep_response)` pair, the caller's conversation
history after the call (mutated or not), the bridge state, and the ordered
trace of outbound tool dispatches. -/
structure ThinkResult where
  fast_response : String
  deep_response : String
  history : List ChatMsg
  bridge : BridgeState
  events : List SendEvent

/-- `MixedThinkingEngine.think` (lines 125-171). Both completions are started
as tasks together; `fast_task` is awaited first, its tool calls (if truthy,
and `user_text` is truthy) are handled immediately, then `deep_task` is
awaited and its tool calls handled. Both task bodies catch their own
exceptions, and `_handle_tool_calls` catches its own, so the outer
`except` branch of `think` (which would return
`("抱歉，我现在无法回应。", "")`) is unreachable for LLM failures: `think`
always returns a pair of strings. The deep task's single heap effect — the
system-prompt mutation through the shallow copy — happens while `think` is
suspended and is identical for either completion order. -/
def think (st : BridgeState) (history : List ChatMsg) (user_text : String)
    (fast_outcome deep_outcome : LLMOutcome) (order : CompletionOrder) :
    ThinkResult :=
  let (fast_response, fast_tool_calls) := fastThinkWithTools fast_outcome
  let ((deep_response, deep_tool_calls), history1) :=
    deepThinkWithTools history deep_outcome
  let (st1, events1) :=
    if truthyCalls fast_tool_calls && !user_text.isEmpty then
      handleToolCalls st (fast_tool_calls.getD []) user_text true
    else (st, [])
  let (st2, events2) :=
    if truthyCalls deep_tool_calls && !user_text.isEmpty then
      handleToolCalls st1 (deep_tool_calls.getD []) user_text false
    else (st1, [])
  match order with
  | .fast_first =>
    ⟨fast_response, deep_response, history1, st2, events1 ++ events2⟩
  | .deep_first =>
    ⟨fast_response, deep_response, history1, st2, events1 ++ events2⟩

end Thinking

namespace ComputerAgent

open Messaging

/-- `computer_agent.ComputerAgentState` (src/computer_agent/computer_agent.py
lines 23-30). -/
inductive ComputerAgentState where
  | IDLE
  | NAVIGATING
  | ANALYZING
  | FILLING_FORM
  | WAITING_INPUT
  | ERROR
deriving DecidableEq, Repr

/-- The `data` dict `fill_form_with_data` passes to `create_info_message`
(lines 714-718): `{"filled_count": ..., "total_count": ...,
"filled_fields": list(form_data.keys())}`. -/
structure FillReportData where
  filled_count : Nat
  total_count : Nat
  filled_fields : List String
deriving DecidableEq, Repr

/-- The `content` dict built by `messaging.create_info_message`:
`{"text": text}` plus `"data"` when a truthy `data` argument is given
(`none` models both `data=None` and an empty dict, which the `if data:`
guard drops). -/
structure InfoContent where
  text : String
  data : Option FillReportData := none
deriving DecidableEq, Repr

/-- `messaging.create_info_message` (src/common/messaging.py lines 266-293),
instantiated at the fill-report payload. `message_id` / `timestamp` default
factories are external nondeterminism, passed in. -/
def create_info_message (text : String) (task_id : String)
    (source : MessageSource) (data : Option FillReportData := none)
    (message_id : String := "") (timestamp : Nat := 0) :
    A2AMessage InfoContent :=
  { source := source
    type := MessageType.INFO
    content := { text := text, data := data }
    task_id := task_id
    message_id := message_id
    timestamp := timestamp
    parts := [] }

/-- The `missing_field_types` accumulation in the `filled_count == 0` branch
of `fill_form_with_data` (lines 686-701): per requested key, a
lower-cased membership test maps known field families to a deduplicated
Chinese label, anything else is appended as-is (没有 dedup for the
fall-through case, mirroring the code). -/
def missingFieldTypes (keys : List String) : List String :=
  keys.foldl
    (fun acc field_name =>
      let lower := strLower field_name
      if lower = "delivery_time" ∨ lower = "preferred_delivery_time" then
        if "配送时间" ∈ acc then acc else acc ++ ["配送时间"]
      else if lower = "delivery_instructions" ∨ lower = "instructions"
          ∨ lower = "comments" then
        if "配送说明" ∈ acc then acc else acc ++ ["配送说明"]
      else if lower = "toppings" ∨ lower = "pizza_toppings" then
        if "配料选择" ∈ acc then acc else acc ++ ["配料选择"]
      else if lower = "size" ∨ lower = "pizza_size" then
        if "尺寸选择" ∈ acc then acc else acc ++ ["尺寸选择"]
      else acc ++ [field_name])
    []

/-- The `result_text` computation of `fill_form_with_data` (lines 679-708).
`reprV` stands for Python's f-string rendering of a field value.
The final `else` branch is Python's dead third arm (`filled_count` is
either positive or zero), kept for fidelity. -/
def fillResultText {V : Type} (reprV : V → String)
    (form_data : Dict V) (filled_count : Nat) : String :=
  let filled_fields := form_data.map fun kv => kv.1 ++ ": " ++ reprV kv.2
  if filled_count > 0 then
    "已成功填写 " ++ toString filled_count ++ " 个字段: "
      ++ String.intercalate ", " (filled_fields.take 3)
      ++ (if filled_fields.length > 3 then
            " 等" ++ toString filled_fields.length ++ "个字段"
          else "")
  else if filled_count = 0 then
    let missing := missingFieldTypes (form_data.map Prod.fst)
    if !missing.isEmpty then
      "当前表单没有以下字段：" ++ String.intercalate ", " missing
        ++ "，无需填写这些信息"
    else "未能填写任何字段，请检查页面表单结构"
  else
    "部分字段填写成功 (" ++ toString filled_count ++ "/"
      ++ toString form_data.length ++ ")，请检查未完成的字段"

/-- `ComputerAgent.fill_form_with_data` (lines 605-734). The per-field fill
attempt — the page-analysis element match, `_fill_element_by_type`, the
`_fill_multiple_toppings` special case and `_fill_element_fallback` — is the
browser-automation boundary (spec §1/§6, out of core scope); its outcome for
a given field is the oracle `fill_ok`. The loop counts successes into
`filled_count`; `failed_fields` is computed as the empty list (the loop body
is `pass`, the source's admitted simplification); the result message is built
by `create_info_message` with `data = {"filled_count": filled_count,
"total_count": len(form_data), "filled_fields": list(form_data.keys())}` and
sent over `message_queue.send_to_phone`, after which the state returns to
`IDLE`. The `except` branch (browser exceptions) is outside the oracle
model: `fill_ok` is total. -/
def fill_form_with_data {V : Type} (fill_ok : String → V → Bool)
    (reprV : V → String) (form_data : Dict V) (task_id : String)
    (q : A2AMessageQueue InfoContent) :
    A2AMessageQueue InfoContent × ComputerAgentState :=
  let filled_count := (form_data.filter fun kv => fill_ok kv.1 kv.2).length
  let result_text := fillResultText reprV form_data filled_count
  let response := create_info_message result_text task_id
    MessageSource.COMPUTER
    (some { filled_count := filled_count
            total_count := form_data.length
            filled_fields := form_data.map Prod.fst })
  (q.send_to_phone response, ComputerAgentState.IDLE)

end ComputerAgent

/-! ## Theorems -/

section QueueTheorems

open Messaging

/-- Auxiliary: the phone→computer channel after a sequence of
`send_to_computer` calls is the old channel followed by the sent messages,
each stamped `source := PHONE`. -/
theorem sendAllToComputer_channel {α : Type} (ms : List (A2AMessage α)) :
    ∀ q : A2AMessageQueue α,
      (q.sendAllToComputer ms).phone_to_computer
        = q.phone_to_computer
          ++ ms.map (fun m => { m with source := MessageSource.PHONE }) := by
  induction ms with
  | nil => intro q; simp [A2AMessageQueue.sendAllToComputer]
  | cons m rest ih =>
    intro q
    simp only [A2AMessageQueue.sendAllToComputer, List.foldl_cons, List.map_cons]
    rw [show (List.foldl A2AMessageQueue.send_to_computer
        (q.send_to_computer m) rest)
        = (q.send_to_computer m).sendAllToComputer rest from rfl]
    rw [ih]
    simp [A2AMessageQueue.send_to_computer]

/-- Auxiliary: the computer→phone channel after a sequence of
`send_to_phone` calls. -/
theorem sendAllToPhone_channel {α : Type} (ms : List (A2AMessage α)) :
    ∀ q : A2AMessageQueue α,
      (q.sendAllToPhone ms).computer_to_phone
        = q.computer_to_phone
          ++ ms.map (fun m => { m with source := MessageSource.COMPUTER }) := by
  induction ms with
  | nil => intro q; simp [A2AMessageQueue.sendAllToPhone]
  | cons m rest ih =>
    intro q
    simp only [A2AMessageQueue.sendAllToPhone, List.foldl_cons, List.map_cons]
    rw [show (List.foldl A2AMessageQueue.send_to_phone
        (q.send_to_phone m) rest)
        = (q.send_to_phone m).sendAllToPhone rest from rfl]
    rw [ih]
    simp [A2AMessageQueue.send_to_phone]

/-- Auxiliary: draining as many messages as the phone→computer channel holds
returns exactly the channel, in order. -/
theorem receiveNFromPhone_drains {α : Type} (l : List (A2AMessage α)) :
    ∀ q : A2AMessageQueue α, q.phone_to_computer = l →
      q.receiveNFromPhone l.length = l := by
  induction l with
  | nil => intro q _; rfl
  | cons m rest ih =>
    intro q hq
    simp only [List.length_cons, A2AMessageQueue.receiveNFromPhone,
      A2AMessageQueue.receive_from_phone, hq]
    exact congrArg (m :: ·) (ih _ rfl)

/-- Auxiliary: draining the computer→phone channel. -/
theorem receiveNFromComputer_drains {α : Type} (l : List (A2AMessage α)) :
    ∀ q : A2AMessageQueue α, q.computer_to_phone = l →
      q.receiveNFromComputer l.length = l := by
  induction l with
  | nil => intro q _; rfl
  | cons m rest ih =>
    intro q hq
    simp only [List.length_cons, A2AMessageQueue.receiveNFromComputer,
      A2AMessageQueue.receive_from_computer, hq]
    exact congrArg (m :: ·) (ih _ rfl)

/-- C5: for every message passed to `send_to_computer` or `send_to_phone`,
the message enqueued on (and hence delivered from) that channel is the
caller's message with its `source` field forced to the channel's configured
sender — `PHONE` for phone→computer, `COMPUTER` for computer→phone —
regardless of the `source` value the caller had set. -/
theorem send_stamps_source {α : Type} (q : A2AMessageQueue α)
    (m : A2AMessage α) :
    (q.send_to_computer m).phone_to_computer
      = q.phone_to_computer ++ [{ m with source := MessageSource.PHONE }]
    ∧ (q.send_to_phone m).computer_to_phone
      = q.computer_to_phone ++ [{ m with source := MessageSource.COMPUTER }] :=
  ⟨rfl, rfl⟩

/-- C6: on either directional channel, `n` sends followed by `n` receives
return the sent messages in send order (FIFO); the received sequence is the
sent sequence (each message as it was enqueued, i.e. source-stamped — in
Python the very same objects, mutated at enqueue time). -/
theorem queue_fifo {α : Type} (ms : List (A2AMessage α)) :
    (A2AMessageQueue.init.sendAllToComputer ms).receiveNFromPhone ms.length
      = ms.map (fun m => { m with source := MessageSource.PHONE })
    ∧ (A2AMessageQueue.init.sendAllToPhone ms).receiveNFromComputer ms.length
      = ms.map (fun m => { m with source := MessageSource.COMPUTER }) := by
  constructor
  · have h := sendAllToComputer_channel ms (A2AMessageQueue.init (α := α))
    have hlen : ms.length
        = (ms.map (fun m => { m with source := MessageSource.PHONE })).length := by
      simp
    rw [hlen]
    exact receiveNFromPhone_drains _ _ (by simpa using h)
  · have h := sendAllToPhone_channel ms (A2AMessageQueue.init (α := α))
    have hlen : ms.length
        = (ms.map (fun m => { m with source := MessageSource.COMPUTER })).length := by
      simp
    rw [hlen]
    exact receiveNFromComputer_drains _ _ (by simpa using h)

end QueueTheorems

section SerializationTheorems

open Messaging

/-- Auxiliary: `MessageSource[name.lower().upper()]` recovers the member. -/
theorem messageSource_name_roundtrip (s : MessageSource) :
    MessageSource.fromName (strUpper (strLower s.name)) = some s := by
  cases s <;> rfl

/-- Auxiliary: the same for `MessageType`. -/
theorem messageType_name_roundtrip (t : MessageType) :
    MessageType.fromName (strUpper (strLower t.name)) = some t := by
  cases t <;> rfl

/-- Auxiliary: the same for `PartType`. -/
theorem partType_name_roundtrip (pt : PartType) :
    PartType.fromName (strUpper (strLower pt.name)) = some pt := by
  cases pt <;> rfl

/-- Auxiliary: a single `Part` survives the dict round trip. -/
theorem part_roundtrip {α : Type} (p : Messaging.Part α) :
    Part.from_dict (Part.to_dict p) = some p := by
  cases p with
  | mk part_type content mime_type metadata =>
    simp [Part.to_dict, Part.from_dict, partType_name_roundtrip]

/-- Auxiliary: the `mapM` accumulator loop over a serialized parts list. -/
theorem parts_roundtrip_loop {α : Type} (ps : List (Messaging.Part α)) :
    ∀ acc : List (Messaging.Part α),
      List.mapM.loop Part.from_dict (ps.map Part.to_dict) acc
        = some (acc.reverse ++ ps) := by
  induction ps with
  | nil => intro acc; simp [List.mapM.loop]
  | cons p rest ih =>
    intro acc
    simp [List.mapM.loop, part_roundtrip, ih]

/-- Auxiliary: a parts list survives the `mapM` round trip. -/
theorem parts_roundtrip {α : Type} (ps : List (Messaging.Part α)) :
    (ps.map Part.to_dict).mapM Part.from_dict = some ps := by
  simpa using parts_roundtrip_loop ps []

/-- C9: for every well-formed `A2AMessage`,
`from_dict(to_dict(m))` reconstructs a message equal to `m` in every field —
`message_id`, `source`, `type`, `content`, `task_id`, `timestamp`, and the
`part_type`, `content`, `mime_type` and `metadata` of every part. -/
theorem a2a_message_dict_roundtrip {α : Type} (m : A2AMessage α) :
    A2AMessage.from_dict (A2AMessage.to_dict m) = some m := by
  cases m with
  | mk source type content task_id message_id timestamp parts =>
    simp [A2AMessage.to_dict, A2AMessage.from_dict,
      messageSource_name_roundtrip, messageType_name_roundtrip,
      parts_roundtrip_loop, Option.bind]

end SerializationTheorems

section BridgeTheorems

open ToolCalling

/-- Auxiliary: looking up a key just assigned returns the new value. -/
theorem dictGet_dictInsert_self {α : Type} (d : Dict α) (k : String) (v : α) :
    dictGet (dictInsert d k v) k = some v := by
  induction d with
  | nil => simp [dictInsert, dictGet]
  | cons kv rest ih =>
    by_cases h : kv.1 = k
    · simp [dictInsert, dictGet, h]
    · simp [dictInsert, dictGet, h, ih]

/-- Auxiliary: dict assignment keeps the key set, except for appending a
genuinely new key. -/
theorem keys_dictInsert {α : Type} (d : Dict α) (k : String) (v : α) :
    (dictInsert d k v).map Prod.fst
      = if k ∈ d.map Prod.fst then d.map Prod.fst
        else d.map Prod.fst ++ [k] := by
  induction d with
  | nil => simp [dictInsert]
  | cons kv rest ih =>
    by_cases h : kv.1 = k
    · simp [dictInsert, h]
    · have hne : ¬k = kv.1 := fun hk => h hk.symm
      by_cases hmem : k ∈ rest.map Prod.fst
      · simp [dictInsert, h, ih, hmem, hne]
      · simp [dictInsert, h, ih, hmem, hne]

/-- Auxiliary: dict assignment preserves key uniqueness. -/
theorem nodup_keys_dictInsert {α : Type} (d : Dict α) (k : String) (v : α)
    (hd : (d.map Prod.fst).Nodup) :
    ((dictInsert d k v).map Prod.fst).Nodup := by
  rw [keys_dictInsert]
  by_cases hmem : k ∈ d.map Prod.fst
  · simpa [hmem] using hd
  · simp only [hmem, if_false]
    refine List.Nodup.append hd (List.nodup_singleton k) ?_
    intro a ha hb
    rw [List.mem_singleton] at hb
    subst hb
    exact hmem ha

/-- Auxiliary: after assigning key `k`, the key occurs exactly once (given
unique keys beforehand, as in any Python dict). -/
theorem count_keys_dictInsert {α : Type} (d : Dict α) (k : String) (v : α)
    (hd : (d.map Prod.fst).Nodup) :
    ((dictInsert d k v).map Prod.fst).count k = 1 := by
  rw [keys_dictInsert]
  by_cases hmem : k ∈ d.map Prod.fst
  · simp only [hmem, if_true]
    exact List.count_eq_one_of_mem hd hmem
  · simp [hmem, List.count_append, List.count_eq_zero_of_not_mem hmem]

/-- C8: registering a handler is last-write-wins and idempotent in effect.
After registering `h1` and then `h2` under the same name on a registry with
unique keys (the Python-dict invariant), exactly one entry is mapped to that
name, lookup yields `h2`, and a subsequent `send_message` to that name is
delivered into `h2`'s inbox and nobody else's. -/
theorem register_last_write_wins (st : BridgeState) (n : String)
    (h1 h2 : ToolCallHandler) (sender : ToolCallHandler)
    (mtype : MessageType) (content : Dict JVal) (tid : Option String)
    (mid : String) (ts : Nat)
    (hnodup : (st.registry.map Prod.fst).Nodup) :
    let st1 := register_agent_handler (register_agent_handler st n h1) n h2
    get_agent_handler st1 n = some h2
    ∧ ((st1.registry.map Prod.fst).count n = 1)
    ∧ ∃ sent st2,
        ToolCallHandler.send_message st1 sender n mtype content tid mid ts
            = .ok (sent, st2)
        ∧ st2.inboxes h2.hid = st1.inboxes h2.hid ++ [sent]
        ∧ ∀ hid, hid ≠ h2.hid → st2.inboxes hid = st1.inboxes hid := by
  intro st1
  have hget : get_agent_handler st1 n = some h2 := by
    simp [st1, get_agent_handler, register_agent_handler,
      dictGet_dictInsert_self]
  refine ⟨hget, ?_, ?_⟩
  · exact count_keys_dictInsert _ n h2 (nodup_keys_dictInsert _ n h1 hnodup)
  · refine ⟨⟨mid, mtype, sender.agent_name, n, content, ts, tid⟩,
      receive_message st1 h2 ⟨mid, mtype, sender.agent_name, n, content, ts, tid⟩,
      ?_, ?_, ?_⟩
    · simp only [ToolCallHandler.send_message, hget]
    · simp [receive_message]
    · intro hid hne
      simp [receive_message, hne]

/-- C8 witness: the three conclusions evaluated on a concrete bridge. -/
theorem register_last_write_wins_witness :
    let st1 := register_agent_handler
      (register_agent_handler BridgeState.init "agent" ⟨"agent", 0⟩)
      "agent" ⟨"agent", 1⟩
    get_agent_handler st1 "agent" = some ⟨"agent", 1⟩
    ∧ ((st1.registry.map Prod.fst).count "agent" = 1)
    ∧ ∃ sent st2,
        ToolCallHandler.send_message st1 ⟨"sender", 7⟩ "agent" .USER_INPUT []
            none "m1" 5
            = .ok (sent, st2)
        ∧ st2.inboxes 1 = st1.inboxes 1 ++ [sent]
        ∧ ∀ hid, hid ≠ 1 → st2.inboxes hid = st1.inboxes hid :=
  register_last_write_wins BridgeState.init "agent" ⟨"agent", 0⟩ ⟨"agent", 1⟩
    ⟨"sender", 7⟩ .USER_INPUT [] none "m1" 5 (by simp [BridgeState.init])

/-- C10: calling `send_message_to_computer_agent` with a `message_type`
string that is not a recognized enum value does not fail (given both
handlers are registered): it reports success and the delivered message
carries the default type `USER_INPUT`; symmetrically
`send_message_to_phone_agent` falls back to `TASK_RESULT`. -/
theorem unknown_message_type_falls_back (st : BridgeState) (message : String)
    (mt : String) (tid : Option String) (ad : Option (Dict JVal))
    (mid : String) (now : Nat) (ph ch : ToolCallHandler)
    (hmt : MessageType.ofValue mt = none)
    (hph : get_agent_handler st "phone_agent" = some ph)
    (hch : get_agent_handler st "computer_agent" = some ch) :
    (∃ sent st2,
      send_message_to_computer_agent st message mt tid ad mid now
          = ({ success := true, message_id := some sent.message_id,
               sent_at := some sent.timestamp }, st2)
      ∧ sent.message_type = MessageType.USER_INPUT
      ∧ st2.inboxes ch.hid = st.inboxes ch.hid ++ [sent])
    ∧ ∃ sent st2,
      send_message_to_phone_agent st message mt tid ad mid now
          = ({ success := true, message_id := some sent.message_id,
               sent_at := some sent.timestamp }, st2)
      ∧ sent.message_type = MessageType.TASK_RESULT
      ∧ st2.inboxes ph.hid = st.inboxes ph.hid ++ [sent] := by
  constructor
  · refine ⟨⟨mid, MessageType.USER_INPUT, ph.agent_name, "computer_agent",
      (match ad with
        | some d => dictUpdate [("text", JVal.jstr message),
            ("timestamp", JVal.jnum now)] d
        | none => [("text", JVal.jstr message), ("timestamp", JVal.jnum now)]),
      now, tid⟩,
      receive_message st ch ⟨mid, MessageType.USER_INPUT, ph.agent_name,
        "computer_agent",
        (match ad with
          | some d => dictUpdate [("text", JVal.jstr message),
              ("timestamp", JVal.jnum now)] d
          | none => [("text", JVal.jstr message), ("timestamp", JVal.jnum now)]),
        now, tid⟩,
      ?_, rfl, ?_⟩
    · simp only [send_message_to_computer_agent, hph,
        ToolCallHandler.send_message, hch, hmt, Option.getD_none]
      rfl
    · simp [receive_message]
  · refine ⟨⟨mid, MessageType.TASK_RESULT, ch.agent_name, "phone_agent",
      (match ad with
        | some d => dictUpdate [("text", JVal.jstr message),
            ("timestamp", JVal.jnum now)] d
        | none => [("text", JVal.jstr message), ("timestamp", JVal.jnum now)]),
      now, tid⟩,
      receive_message st ph ⟨mid, MessageType.TASK_RESULT, ch.agent_name,
        "phone_agent",
        (match ad with
          | some d => dictUpdate [("text", JVal.jstr message),
              ("timestamp", JVal.jnum now)] d
          | none => [("text", JVal.jstr message), ("timestamp", JVal.jnum now)]),
        now, tid⟩,
      ?_, rfl, ?_⟩
    · simp only [send_message_to_phone_agent, hch,
        ToolCallHandler.send_message, hph, hmt, Option.getD_none]
      rfl
    · simp [receive_message]

/-- C10 witness: with both handlers registered and the unrecognized type
string "navigate", both tool functions succeed with the fallback types. -/
theorem unknown_message_type_falls_back_witness :
    let st := register_agent_handler
      (register_agent_handler BridgeState.init "phone_agent" ⟨"phone_agent", 0⟩)
      "computer_agent" ⟨"computer_agent", 1⟩
    (∃ sent st2,
      send_message_to_computer_agent st "请填写表单" "navigate" none none "m1" 9
          = ({ success := true, message_id := some sent.message_id,
               sent_at := some sent.timestamp }, st2)
      ∧ sent.message_type = MessageType.USER_INPUT
      ∧ st2.inboxes 1 = st.inboxes 1 ++ [sent])
    ∧ ∃ sent st2,
      send_message_to_phone_agent st "请填写表单" "navigate" none none "m1" 9
          = ({ success := true, message_id := some sent.message_id,
               sent_at := some sent.timestamp }, st2)
      ∧ sent.message_type = MessageType.TASK_RESULT
      ∧ st2.inboxes 0 = st.inboxes 0 ++ [sent] :=
  unknown_message_type_falls_back _ "请填写表单" "navigate" none none "m1" 9
    ⟨"phone_agent", 0⟩ ⟨"computer_agent", 1⟩ (by rfl) (by rfl) (by rfl)

/-- C2 counterexample: the handler-level send operation
(`ToolCallHandler.send_message`) called with the unregistered recipient
"not-registered" does not return a structured failure after a retry — it
performs a single registry lookup and raises
`Exception("找不到目标Agent: not-registered")` out of the caller
(modelled as `.error`), refuting the claim as stated at this concrete
input. -/
theorem handler_send_unregistered_raises :
    ToolCallHandler.send_message BridgeState.init ⟨"phone_agent", 0⟩
        "not-registered" MessageType.USER_INPUT [] none "m1" 0
      = .error "找不到目标Agent: not-registered" := rfl

/-- C2 (amended): `ToolCallHandler.send_message` raises — with no retry —
when the named recipient is not in the registry; the bounded single retry
lives in the module-level tool function `send_message_to_computer_agent` and
re-checks the *sender's own* handler registration, while the structured
"recipient not registered" failure is produced by that wrapper catching the
handler's exception, leaving the bridge state unchanged. -/
theorem bridge_send_failure_semantics :
    (∀ (st : BridgeState) (self : ToolCallHandler) (recipient : String)
        (mtype : MessageType) (content : Dict JVal) (tid : Option String)
        (mid : String) (ts : Nat),
      get_agent_handler st recipient = none →
        ToolCallHandler.send_message st self recipient mtype content tid mid ts
          = .error ("找不到目标Agent: " ++ recipient))
    ∧ ∀ (st : BridgeState) (message mt : String) (tid : Option String)
        (ad : Option (Dict JVal)) (mid : String) (now : Nat)
        (ph : ToolCallHandler),
      get_agent_handler st "phone_agent" = some ph →
      get_agent_handler st "computer_agent" = none →
        send_message_to_computer_agent st message mt tid ad mid now
          = ({ success := false,
               error := some "找不到目标Agent: computer_agent" }, st) := by
  constructor
  · intro st self recipient mtype content tid mid ts hnone
    simp only [ToolCallHandler.send_message, hnone]
  · intro st message mt tid ad mid now ph hph hch
    simp only [send_message_to_computer_agent, hph,
      ToolCallHandler.send_message, hch]
    rfl

/-- C2 witness: both amended conclusions evaluated on concrete bridges — an
empty registry for the raising handler-level send, and a registry holding
only the phone handler for the structured wrapper failure. -/
theorem bridge_send_failure_semantics_witness :
    ToolCallHandler.send_message BridgeState.init ⟨"phone_agent", 3⟩
        "computer_agent" MessageType.FORM_DATA [] none "m2" 4
      = .error "找不到目标Agent: computer_agent"
    ∧ send_message_to_computer_agent
        (register_agent_handler BridgeState.init "phone_agent"
          ⟨"phone_agent", 0⟩) "你好" "user_input" none none "m3" 8
      = ({ success := false,
           error := some "找不到目标Agent: computer_agent" },
         register_agent_handler BridgeState.init "phone_agent"
           ⟨"phone_agent", 0⟩) :=
  ⟨bridge_send_failure_semantics.1 BridgeState.init ⟨"phone_agent", 3⟩
      "computer_agent" MessageType.FORM_DATA [] none "m2" 4 (by rfl),
   bridge_send_failure_semantics.2
      (register_agent_handler BridgeState.init "phone_agent" ⟨"phone_agent", 0⟩)
      "你好" "user_input" none none "m3" 8 ⟨"phone_agent", 0⟩ (by rfl) (by rfl)⟩

end BridgeTheorems

section ThinkingTheorems

open ToolCalling Thinking

/-- C1 counterexample: with the fast path's underlying LLM call mocked to
raise, `think()` does return a pair of strings, but the failing fast side's
string is the non-empty filler "嗯..." — not the empty string the claim
requires. -/
theorem think_failed_path_not_empty :
    (think BridgeState.init [⟨"system", "S"⟩] "你好" (.raise "boom")
        (.ok (some "好的") none) .fast_first).fast_response = "嗯..."
    ∧ ("嗯..." : String) ≠ "" := by
  exact ⟨rfl, by decide⟩

/-- C1 (amended): `think()` is total — it always returns a pair of strings,
for any outcome of the two mocked LLM calls and any completion order — and a
path whose underlying LLM call raises (or times out) yields that path's fixed
non-empty filler string ("嗯..." fast, "让我想想...啊，抱歉，我刚刚走神了。"
deep) rather than the empty string, while the sibling path is not aborted:
its response is exactly what its own outcome produces. -/
theorem think_llm_failure_degrades_to_filler :
    (∀ (st : BridgeState) (history : List ChatMsg) (user_text e : String)
        (deep_outcome : LLMOutcome) (order : CompletionOrder),
      (think st history user_text (.raise e) deep_outcome order).fast_response
          = fastExceptText
      ∧ (think st history user_text (.raise e) deep_outcome order).deep_response
          = (deepThinkWithTools history deep_outcome).1.1)
    ∧ ∀ (st : BridgeState) (history : List ChatMsg) (user_text : String)
        (fast_outcome : LLMOutcome) (e : String) (order : CompletionOrder),
      (think st history user_text fast_outcome (.raise e) order).deep_response
          = deepExceptText
      ∧ (think st history user_text fast_outcome (.raise e) order).fast_response
          = (fastThinkWithTools fast_outcome).1 := by
  constructor
  · intro st history user_text e deep_outcome order
    cases order <;> exact ⟨rfl, rfl⟩
  · intro st history user_text fast_outcome e order
    cases history <;> cases order <;> exact ⟨rfl, rfl⟩

/-- C4 evaluation at the failing input: `think()` hands the history to
`_deep_think_with_tools`, whose shallow `messages.copy()` shares the dict at
index 0, so the in-place `+=` appends the deep-thinking suffix to the
caller's system-prompt entry: after `think()` returns, the history differs
from what was passed in. -/
theorem think_mutates_system_prompt :
    (think BridgeState.init [⟨"system", "P"⟩, ⟨"user", "你好"⟩] "你好"
        (.ok (some "好") none) (.ok (some "深") none) .fast_first).history
      = [⟨"system", "P" ++ deepSuffix⟩, ⟨"user", "你好"⟩]
    ∧ ("P" ++ deepSuffix : String) ≠ "P" := by
  exact ⟨rfl, by decide⟩

/-- Auxiliary: every dispatch `_handle_tool_calls` records carries the
thinking-path flag it was invoked with; exactly the tool calls named
`send_message_to_computer_agent` are dispatched. -/
theorem handleToolCalls_flags (user_text : String) (f : Bool) :
    ∀ (tcs : List LLMToolCall) (st : BridgeState),
      ((handleToolCalls st tcs user_text f).2).map SendEvent.from_fast_thinking
        = (tcs.filter fun tc =>
            tc.function_name = "send_message_to_computer_agent").map
              (fun _ => f) := by
  intro tcs
  induction tcs with
  | nil => intro st; rfl
  | cons tc rest ih =>
    intro st
    by_cases h : tc.function_name = "send_message_to_computer_agent"
    · have hfil : List.filter (fun tc =>
          decide (tc.function_name = "send_message_to_computer_agent"))
            (tc :: rest)
          = tc :: List.filter (fun tc =>
              decide (tc.function_name = "send_message_to_computer_agent"))
              rest :=
        List.filter_cons_of_pos (by simp [h])
      simp only [handleToolCalls, h, if_true]
      cases hw : send_message_to_computer_agent st tc.message tc.message_type
          tc.task_id
          (some (dictInsert (dictInsert tc.additional_data
            "original_user_input" (JVal.jstr user_text))
            "from_fast_thinking" (JVal.jbool f))) "" 0 with
      | mk result st1 =>
        cases hh : handleToolCalls st1 rest user_text f with
        | mk st2 events =>
          have hih := ih st1
          rw [hh] at hih
          simp only [hfil, List.map_cons]
          exact congrArg (f :: ·) hih
    · have hfil : List.filter (fun tc =>
          decide (tc.function_name = "send_message_to_computer_agent"))
            (tc :: rest)
          = List.filter (fun tc =>
              decide (tc.function_name = "send_message_to_computer_agent"))
              rest :=
        List.filter_cons_of_neg (by simp [h])
      simp only [handleToolCalls, h, if_false, hfil]
      exact ih st

/-- C3: within a single `think()` call in which both paths produce
actionable tool calls (a non-`None`, non-empty tool-call list each, with a
non-empty user utterance and a non-empty history so the deep path reaches
its LLM call), the dispatch trace splits as fast-path sends followed by
deep-path sends — every fast-path outbound dispatch happens before every
deep-path outbound dispatch, for either wall-clock completion order of the
two LLM tasks. -/
theorem fast_sends_dispatched_before_deep_sends (st : BridgeState)
    (m0 : ChatMsg) (hist : List ChatMsg) (user_text : String)
    (fc dc : Option String) (ftcs dtcs : List LLMToolCall)
    (order : CompletionOrder)
    (hu : user_text ≠ "")
    (hfsend : ∃ tc ∈ ftcs, tc.function_name = "send_message_to_computer_agent")
    (hdsend : ∃ tc ∈ dtcs, tc.function_name = "send_message_to_computer_agent") :
    ∃ fastEvents deepEvents,
      (think st (m0 :: hist) user_text (.ok fc (some ftcs))
          (.ok dc (some dtcs)) order).events
        = fastEvents ++ deepEvents
      ∧ fastEvents ≠ [] ∧ deepEvents ≠ []
      ∧ (∀ ev ∈ fastEvents, ev.from_fast_thinking = true)
      ∧ (∀ ev ∈ deepEvents, ev.from_fast_thinking = false) := by
  obtain ⟨ftc, hftc, hfname⟩ := hfsend
  obtain ⟨dtc, hdtc, hdname⟩ := hdsend
  have hfne : ftcs ≠ [] := by intro h; subst h; exact absurd hftc (by simp)
  have hdne : dtcs ≠ [] := by intro h; subst h; exact absurd hdtc (by simp)
  have htf : truthyCalls (some ftcs) = true := by
    simpa [truthyCalls] using hfne
  have htd : truthyCalls (some dtcs) = true := by
    simpa [truthyCalls] using hdne
  have hue : user_text.isEmpty = false := by
    cases hch : user_text.isEmpty with
    | false => rfl
    | true => exact absurd ((String.isEmpty_iff user_text).mp hch) hu
  have hfilterf : (ftcs.filter fun tc =>
      tc.function_name = "send_message_to_computer_agent") ≠ [] := by
    intro h
    rw [List.filter_eq_nil_iff] at h
    exact absurd hfname (by simpa using h ftc hftc)
  have hfilterd : (dtcs.filter fun tc =>
      tc.function_name = "send_message_to_computer_agent") ≠ [] := by
    intro h
    rw [List.filter_eq_nil_iff] at h
    exact absurd hdname (by simpa using h dtc hdtc)
  have hthink : (think st (m0 :: hist) user_text (.ok fc (some ftcs))
      (.ok dc (some dtcs)) order).events
      = (handleToolCalls st ftcs user_text true).2
        ++ (handleToolCalls
              (handleToolCalls st ftcs user_text true).1 dtcs user_text
              false).2 := by
    cases order
    all_goals
      simp only [think, fastThinkWithTools, deepThinkWithTools, htf, htd, hue,
        Bool.not_false, Bool.and_true, Bool.true_and, Bool.and_self, if_true,
        Option.getD_some]
  refine ⟨(handleToolCalls st ftcs user_text true).2,
    (handleToolCalls (handleToolCalls st ftcs user_text true).1
      dtcs user_text false).2, hthink, ?_, ?_, ?_, ?_⟩
  · intro h
    have := handleToolCalls_flags user_text true ftcs st
    rw [h] at this
    exact hfilterf (by simpa using this.symm)
  · intro h
    have := handleToolCalls_flags user_text false dtcs
      (handleToolCalls st ftcs user_text true).1
    rw [h] at this
    exact hfilterd (by simpa using this.symm)
  · intro ev hev
    have := handleToolCalls_flags user_text true ftcs st
    have hmem : ev.from_fast_thinking
        ∈ ((handleToolCalls st ftcs user_text true).2).map
          SendEvent.from_fast_thinking :=
      List.mem_map_of_mem _ hev
    rw [this] at hmem
    obtain ⟨a, -, ha⟩ := List.mem_map.mp hmem
    exact ha.symm
  · intro ev hev
    have := handleToolCalls_flags user_text false dtcs
      (handleToolCalls st ftcs user_text true).1
    have hmem : ev.from_fast_thinking
        ∈ ((handleToolCalls (handleToolCalls st ftcs user_text true).1
            dtcs user_text false).2).map SendEvent.from_fast_thinking :=
      List.mem_map_of_mem _ hev
    rw [this] at hmem
    obtain ⟨a, -, ha⟩ := List.mem_map.mp hmem
    exact ha.symm

/-- C3 witness: the ordering conclusion evaluated on a concrete `think()`
call in which both paths return one actionable tool call each. -/
theorem fast_sends_dispatched_before_deep_sends_witness :
    ∃ fastEvents deepEvents,
      (think BridgeState.init [⟨"system", "S"⟩] "请帮我填写表单"
          (.ok (some "好的")
            (some [⟨"send_message_to_computer_agent", "填写姓名",
              "user_input", none, []⟩]))
          (.ok (some "已分析")
            (some [⟨"send_message_to_computer_agent", "填写邮箱",
              "form_data", none, []⟩]))
          .deep_first).events
        = fastEvents ++ deepEvents
      ∧ fastEvents ≠ [] ∧ deepEvents ≠ []
      ∧ (∀ ev ∈ fastEvents, ev.from_fast_thinking = true)
      ∧ (∀ ev ∈ deepEvents, ev.from_fast_thinking = false) :=
  fast_sends_dispatched_before_deep_sends BridgeState.init ⟨"system", "S"⟩ []
    "请帮我填写表单" (some "好的") (some "已分析")
    [⟨"send_message_to_computer_agent", "填写姓名", "user_input", none, []⟩]
    [⟨"send_message_to_computer_agent", "填写邮箱", "form_data", none, []⟩]
    .deep_first (by decide)
    ⟨⟨"send_message_to_computer_agent", "填写姓名", "user_input", none, []⟩,
      by simp, rfl⟩
    ⟨⟨"send_message_to_computer_agent", "填写邮箱", "form_data", none, []⟩,
      by simp, rfl⟩

end ThinkingTheorems

section FillFormTheorems

open Messaging ComputerAgent

/-- C7 counterexample: a form-fill request over two fields of which exactly
one is actually filled (the oracle succeeds only on "custname"). The result
message reports `filled_count = 1` — but `filled_fields` is
`["custname", "custemail"]`, the list of all requested keys, which is not
the list `["custname"]` of fields actually filled successfully, refuting the
claim at this concrete input. -/
theorem fill_form_filled_fields_inexact :
    ∃ sent,
      (fill_form_with_data (V := String) (fun k _ => k == "custname")
          (fun v => v) [("custname", "张三"), ("custemail", "a@b.com")] "t1"
          A2AMessageQueue.init).1.computer_to_phone
        = [sent]
      ∧ sent.content.data
          = some { filled_count := 1, total_count := 2,
                   filled_fields := ["custname", "custemail"] }
      ∧ (([("custname", "张三"), ("custemail", "a@b.com")].filter
            fun kv => kv.1 == "custname").map Prod.fst)
          = ["custname"]
      ∧ (["custname", "custemail"] : List String) ≠ ["custname"] := by
  refine ⟨_, rfl, ?_, by decide, by decide⟩
  rfl

/-- C7 (amended): for every form-fill request, the result message sent back
to the phone agent carries `filled_count` equal to the number of fields
actually filled successfully and `total_count` equal to the number of
requested fields — but `filled_fields` lists *all* requested field keys
(`list(form_data.keys())`), not only the successfully filled ones; which
individual fields failed is not reported. -/
theorem fill_form_report_contents {V : Type} (fill_ok : String → V → Bool)
    (reprV : V → String) (form_data : Dict V) (task_id : String)
    (q : A2AMessageQueue InfoContent) :
    ∃ sent,
      (fill_form_with_data fill_ok reprV form_data task_id q).1.computer_to_phone
        = q.computer_to_phone ++ [sent]
      ∧ sent.type = MessageType.INFO
      ∧ sent.source = MessageSource.COMPUTER
      ∧ sent.task_id = task_id
      ∧ sent.content.data
          = some { filled_count :=
                     (form_data.filter fun kv => fill_ok kv.1 kv.2).length
                   total_count := form_data.length
                   filled_fields := form_data.map Prod.fst }
      ∧ (fill_form_with_data fill_ok reprV form_data task_id q).2
          = ComputerAgentState.IDLE := by
  refine ⟨_, rfl, rfl, rfl, rfl, rfl, rfl⟩

end FillFormTheorems

end DualAgent
